import Mathlib

/-!
Shallow embedding of the figure / numbering-anchor subsystem
(`src/library/src/meta/figure.rs`): the `AnchorElem` and `FigureElem`
elements with their `Synthesize`, `Show`, `LocalName` and `RefAnchor`
capabilities.  Collaborator types that live outside the given source
(counters, numberings, supplements, lengths, the style chain) are
modelled from the specification; the two elements themselves are
translated line by line from the source.
-/

/-- Error carried by a `SourceResult`; opaque here since nothing in the
embedded code constructs one. -/
inductive SourceError where
  | err : String → SourceError
deriving DecidableEq

/-- Modelled from the spec: a language code (`Lang` is external to the
given source; only its identity matters for `local_name`). -/
structure Lang where
  code : String
deriving DecidableEq

/-- The German language code. -/
def Lang.GERMAN : Lang := ⟨"de"⟩

/-- The English language code. -/
def Lang.ENGLISH : Lang := ⟨"en"⟩

/-- Horizontal or vertical alignment. -/
inductive Align where
  | Start : Align
  | Center : Align
  | End : Align
deriving DecidableEq

/-- Per-axis optional alignment, as in `Axes<Option<Align>>`. -/
structure Axes where
  x : Option Align := none
  y : Option Align := none
deriving DecidableEq

/-- Builds axes with only the horizontal component set, as
`Axes::with_x`. -/
def Axes.withX (v : Option Align) : Axes := { x := v }

/-- Modelled from the spec: a length with an absolute part and a
font-relative `em` part. -/
structure Length where
  abs : Rat := 0
  em : Rat := 0
deriving DecidableEq

/-- A font-relative amount. -/
structure Em where
  amount : Rat
deriving DecidableEq

/-- Constructs an `Em` amount, as `Em::new`. -/
def Em.new (amount : Rat) : Em := ⟨amount⟩

/-- Conversion of an `Em` amount into a `Length` (the `.into()` in the
gap default). -/
def Em.toLength (e : Em) : Length := { em := e.amount }

/-- Modelled from the spec: a counter is identified by a key (the
element kind, or a user-chosen key). -/
structure Counter where
  key : String
deriving DecidableEq

/-- Counter keyed by an element kind, as `Counter::of`. -/
def Counter.of (kind : String) : Counter := ⟨kind⟩

/-- Modelled from the spec: an update recorded in a counter's history,
either stepping a 1-based level or setting the whole value. -/
inductive CounterUpdate where
  | Step : Nat → CounterUpdate
  | Set : List Nat → CounterUpdate
deriving DecidableEq

/-- Modelled from the spec: a numbering kind recognised as a pattern
specifier character. -/
inductive NumberingKind where
  | arabic : NumberingKind
  | lowerRoman : NumberingKind
  | upperRoman : NumberingKind
  | lowerLetter : NumberingKind
  | upperLetter : NumberingKind
deriving DecidableEq

/-- Modelled from the spec: the specifier character recognised for each
numbering kind. -/
def NumberingKind.fromChar : Char → Option NumberingKind
  | '1' => some NumberingKind.arabic
  | 'i' => some NumberingKind.lowerRoman
  | 'I' => some NumberingKind.upperRoman
  | 'a' => some NumberingKind.lowerLetter
  | 'A' => some NumberingKind.upperLetter
  | _ => none

/-- Modelled from the spec: a numbering pattern is an ordered sequence
of per-level specifiers, each with its literal separator text before
it, plus trailing literal text. -/
structure NumberingPattern where
  pieces : List (String × NumberingKind)
  trailing : String
deriving DecidableEq

/-- Splits pattern text into specifier pieces and trailing literal
text. -/
def NumberingPattern.scan :
    List Char → String → List (String × NumberingKind) →
      List (String × NumberingKind) × String
  | [], lit, acc => (acc.reverse, lit)
  | c :: cs, lit, acc =>
    match NumberingKind.fromChar c with
    | some k => NumberingPattern.scan cs "" ((lit, k) :: acc)
    | none => NumberingPattern.scan cs (lit.push c) acc

/-- Modelled from the spec: parsing pattern text; a pattern must contain
at least one recognised specifier, otherwise construction fails. -/
def NumberingPattern.fromStr (s : String) : Option NumberingPattern :=
  let scanned := NumberingPattern.scan s.data "" []
  if scanned.fst.isEmpty then none
  else some ⟨scanned.fst, scanned.snd⟩

/-- Modelled from the spec: a numbering is either a parsed pattern or an
opaque formatting function, here identified by an id since the embedded
code never invokes it. -/
inductive Numbering where
  | pattern : NumberingPattern → Numbering
  | func : Nat → Numbering
deriving DecidableEq

/-- An inline content item.  `text` covers packed text elements,
`counterUpdate` and `counterDisplay` are the location-bound counter
elements produced during rendering, `velem` is vertical spacing (the
Bool marks weakness), and `atom` stands for arbitrary opaque user
content. -/
inductive Item where
  | text : String → Item
  | counterUpdate : Counter → CounterUpdate → Item
  | counterDisplay : Counter → Option Numbering → Bool → Item
  | velem : Length → Bool → Item
  | atom : Nat → Item
deriving DecidableEq

/-- Content is a sequence of inline items; `+` on content is
concatenation. -/
abbrev Content := List Item

/-- The empty content, as `Content::empty()`. -/
def Content.empty : Content := []

/-- Packed text content, as `TextElem::packed`. -/
def TextElem.packed (s : String) : Content := [Item.text s]

/-- The non-breaking space character emitted after a supplement. -/
def nbspText : String := "\u00A0"

/-- Content recording a counter update at the current location, as
`counter.update(..)`. -/
def Counter.update (c : Counter) (u : CounterUpdate) : Content :=
  [Item.counterUpdate c u]

/-- Content displaying a counter's value at the current location
through a numbering, as `counter.display(numbering, reversed)`. -/
def Counter.display (c : Counter) (numbering : Option Numbering)
    (reversed : Bool) : Content :=
  [Item.counterDisplay c numbering reversed]

/-- Weak vertical spacing content, as `VElem::weak(..).pack()`. -/
def VElem.weak (amount : Length) : Content :=
  [Item.velem amount true]

/-- A block element, as built by `BlockElem::new().with_body(..)
.with_breakable(..)`. -/
structure BlockElem where
  body : Option Content := none
  breakable : Bool := true
deriving DecidableEq

/-- A packed block with an alignment applied, the shape returned by
`FigureElem::show`. -/
structure AlignedBlock where
  block : BlockElem
  align : Axes
deriving DecidableEq

/-- Modelled from the spec: a supplement is label content prefixed
before a number.  Only the explicit-content form occurs for
already-evaluated inputs. -/
inductive Supplement where
  | content : Content → Supplement
deriving DecidableEq

/-- A value that is either automatic or explicitly given, as
`Smart<T>`; its default is `auto`. -/
inductive Smart (α : Type) where
  | auto : Smart α
  | custom : α → Smart α
deriving DecidableEq

/-- Modelled from the spec: the style chain supplies resolved values for
each settable element field, plus the active language; `none` means the
style scope sets nothing and the field's documented default applies. -/
structure StyleChain where
  lang : Lang := Lang.ENGLISH
  anchorLevel : Option Nat := none
  figSupplement : Option (Smart (Option Supplement)) := none
  figCounter : Option Counter := none
  figNumbering : Option (Option Numbering) := none
  figSep : Option (Option Content) := none
  figCaption : Option (Option Content) := none
  figGap : Option Length := none
deriving DecidableEq

/-- The style chain of an empty style scope. -/
def StyleChain.empty : StyleChain := {}

/-- Modelled from the spec: supplement resolution.  Explicit content is
returned unchanged, automatic resolves to the element's localized name,
none resolves to no content; with already-evaluated content it never
fails. -/
def Supplement.resolve (s : Smart (Option Supplement)) (name : String) :
    Except SourceError (Option Content) :=
  match s with
  | Smart.auto => Except.ok (some (TextElem.packed name))
  | Smart.custom none => Except.ok none
  | Smart.custom (some (Supplement.content c)) => Except.ok (some c)

/-- The pure value `Supplement.resolve` always succeeds with. -/
def Supplement.resolveVal (s : Smart (Option Supplement))
    (name : String) : Option Content :=
  match s with
  | Smart.auto => some (TextElem.packed name)
  | Smart.custom none => none
  | Smart.custom (some (Supplement.content c)) => some c

/-- The anchor element: a counter, a settable target level (default 1),
a resolved supplement and a numbering.  Settable fields store `none`
when not set on the element itself. -/
structure AnchorElem where
  counter : Counter
  levelSet : Option Nat := none
  supplement : Option Content
  numbering : Option Numbering
deriving DecidableEq

/-- Accessor for the settable `level` field: the element's own value,
else the styled value, else the default `NonZeroUsize::ONE`. -/
def AnchorElem.level (a : AnchorElem) (styles : StyleChain) : Nat :=
  a.levelSet.getD (styles.anchorLevel.getD 1)

/-- Constructor `AnchorElem::new(counter, supplement, numbering)`; the
level stays unset. -/
def AnchorElem.new (counter : Counter) (supplement : Option Content)
    (numbering : Option Numbering) : AnchorElem :=
  { counter := counter, supplement := supplement, numbering := numbering }

/-- `Synthesize for AnchorElem`: re-pushes the element's own numbering
field; the style chain argument is unused. -/
def AnchorElem.synthesize (a : AnchorElem) (_styles : StyleChain) :
    AnchorElem :=
  { a with numbering := a.numbering }

/-- `Show for AnchorElem`: starts from empty content, appends the
supplement plus a non-breaking space when the supplement is present,
then appends the counter step update and display when the numbering is
present. -/
def AnchorElem.show (a : AnchorElem) (styles : StyleChain) :
    Except SourceError Content :=
  let content := Content.empty
  let content := match a.supplement with
    | some supplement => content ++ (supplement ++ TextElem.packed nbspText)
    | none => content
  let content := content ++ (match a.numbering with
    | some numbering =>
        Counter.update a.counter (CounterUpdate.Step (a.level styles)) ++
          Counter.display a.counter (some numbering) false
    | none => Content.empty)
  Except.ok content

/-- The supplement part of an anchor's rendering: the supplement
followed by a non-breaking space when present, nothing otherwise. -/
def AnchorElem.supplementPart (a : AnchorElem) : Content :=
  match a.supplement with
  | some supplement => supplement ++ TextElem.packed nbspText
  | none => Content.empty

/-- The numbering part of an anchor's rendering: the counter step
update at the anchor's level followed by the counter display through
the numbering, nothing when the numbering is absent. -/
def AnchorElem.numberPart (a : AnchorElem) (styles : StyleChain) :
    Content :=
  match a.numbering with
  | some numbering =>
      Counter.update a.counter (CounterUpdate.Step (a.level styles)) ++
        Counter.display a.counter (some numbering) false
  | none => Content.empty

/-- The figure element.  `body` is required; every other field is
settable, storing `none` when not set on the element itself. -/
structure FigureElem where
  body : Content
  supplementSet : Option (Smart (Option Supplement)) := none
  counterSet : Option Counter := none
  numberingSet : Option (Option Numbering) := none
  sepSet : Option (Option Content) := none
  captionSet : Option (Option Content) := none
  gapSet : Option Length := none
deriving DecidableEq

/-- The element-kind key of figures, `Self::func()`. -/
def FigureElem.funcName : String := "figure"

/-- The default numbering, `Some(NumberingPattern::from_str("1")
.unwrap().into())`; the `none` branch mirrors the `unwrap` and is
unreachable since the pattern text parses. -/
def FigureElem.defaultNumbering : Option Numbering :=
  match NumberingPattern.fromStr "1" with
  | some p => some (Numbering.pattern p)
  | none => none

/-- Accessor for `supplement`: set value, else styled value, else the
`Smart` default `auto`. -/
def FigureElem.supplement (f : FigureElem) (styles : StyleChain) :
    Smart (Option Supplement) :=
  f.supplementSet.getD (styles.figSupplement.getD Smart.auto)

/-- Accessor for `counter`: set value, else styled value, else the
default `Counter::of(Self::func())`. -/
def FigureElem.counter (f : FigureElem) (styles : StyleChain) : Counter :=
  f.counterSet.getD (styles.figCounter.getD (Counter.of FigureElem.funcName))

/-- Accessor for `numbering`: set value, else styled value, else the
default arabic pattern. -/
def FigureElem.numbering (f : FigureElem) (styles : StyleChain) :
    Option Numbering :=
  f.numberingSet.getD (styles.figNumbering.getD FigureElem.defaultNumbering)

/-- Accessor for `sep`: set value, else styled value, else the default
`Some(TextElem::packed(": "))`. -/
def FigureElem.sep (f : FigureElem) (styles : StyleChain) :
    Option Content :=
  f.sepSet.getD (styles.figSep.getD (some (TextElem.packed ": ")))

/-- Accessor for `caption`: set value, else styled value, else `None`. -/
def FigureElem.caption (f : FigureElem) (styles : StyleChain) :
    Option Content :=
  f.captionSet.getD (styles.figCaption.getD none)

/-- Accessor for `gap`: set value, else styled value, else the default
`Em::new(0.65).into()`. -/
def FigureElem.gap (f : FigureElem) (styles : StyleChain) : Length :=
  f.gapSet.getD (styles.figGap.getD (Em.toLength (Em.new 0.65)))

/-- A figure constructed from its required body alone, with no explicit
configuration. -/
def FigureElem.new (body : Content) : FigureElem := { body := body }

/-- `Synthesize for FigureElem`: pushes the style-resolved numbering
onto the element. -/
def FigureElem.synthesize (f : FigureElem) (styles : StyleChain) :
    FigureElem :=
  { f with numberingSet := some (f.numbering styles) }

/-- `LocalName for FigureElem`: German maps to "Abbildung", English and
every other language fall through to "Figure". -/
def FigureElem.local_name (lang : Lang) : String :=
  if lang = Lang.GERMAN then "Abbildung" else "Figure"

/-- `RefAnchor for FigureElem`: resolves the supplement, then builds a
new anchor from the figure's counter, the resolved supplement and the
figure's numbering. -/
def FigureElem.anchor (f : FigureElem) (styles : StyleChain) :
    Except SourceError AnchorElem :=
  match Supplement.resolve (f.supplement styles)
      (FigureElem.local_name styles.lang) with
  | Except.error e => Except.error e
  | Except.ok supplement =>
      Except.ok (AnchorElem.new (f.counter styles) supplement
        (f.numbering styles))

/-- The anchor a figure constructs during `show`, with the supplement
already resolved. -/
def FigureElem.anchorOf (f : FigureElem) (styles : StyleChain) :
    AnchorElem :=
  AnchorElem.new (f.counter styles)
    (Supplement.resolveVal (f.supplement styles)
      (FigureElem.local_name styles.lang))
    (f.numbering styles)

/-- The content the figure's anchor renders to inside `show`. -/
def FigureElem.anchorShown (f : FigureElem) (styles : StyleChain) :
    Content :=
  AnchorElem.supplementPart (f.anchorOf styles) ++
    AnchorElem.numberPart (f.anchorOf styles) styles

/-- The caption buffer after the numbering step of `FigureElem::show`:
when the numbering is present the anchor is built and shown into the
empty buffer, either step propagating its error. -/
def FigureElem.capAfterAnchor (f : FigureElem) (styles : StyleChain) :
    Except SourceError Content :=
  if (f.numbering styles).isSome then
    match f.anchor styles with
    | Except.error e => Except.error e
    | Except.ok a =>
      match AnchorElem.show a styles with
      | Except.error e => Except.error e
      | Except.ok shown => Except.ok (Content.empty ++ shown)
  else Except.ok Content.empty

/-- `Show for FigureElem`: accumulates the anchor content (when
numbered) and the caption (separated when both are present) into a
caption buffer, appends it to the body after a weak vertical gap when
non-empty, and wraps the result in a non-breakable horizontally
centered block. -/
def FigureElem.show (f : FigureElem) (styles : StyleChain) :
    Except SourceError AlignedBlock :=
  match FigureElem.capAfterAnchor f styles with
  | Except.error e => Except.error e
  | Except.ok cap =>
    let cap := match f.caption styles with
      | some caption =>
          (if cap.isEmpty then cap
            else cap ++ (f.sep styles).getD Content.empty) ++ caption
      | none => cap
    let realized :=
      if cap.isEmpty then f.body
      else f.body ++ VElem.weak (f.gap styles) ++ cap
    Except.ok { block := { body := some realized, breakable := false },
                align := Axes.withX (some Align.Center) }

/-- The non-breakable horizontally centered block `FigureElem::show`
wraps its realized content in. -/
def wrapBlock (realized : Content) : AlignedBlock :=
  { block := { body := some realized, breakable := false },
    align := Axes.withX (some Align.Center) }

/-! Concrete sample values used to instantiate the theorems below. -/

/-- The parsed form of the default pattern text "1": a single arabic
specifier with no literal text. -/
def arabicOnePattern : NumberingPattern :=
  { pieces := [("", NumberingKind.arabic)], trailing := "" }

/-- A sample anchor with a supplement and a numbering. -/
def anchorW : AnchorElem :=
  { counter := Counter.of "figure", supplement := some [Item.atom 7],
    numbering := some (Numbering.func 1) }

/-- A sample anchor with a supplement and no numbering. -/
def anchorN : AnchorElem :=
  { counter := Counter.of "figure", supplement := some [Item.atom 7],
    numbering := none }

/-- A sample anchor whose supplement is present but resolves to empty
content, and with no numbering. -/
def anchorEmptySupp : AnchorElem :=
  { counter := Counter.of "figure", supplement := some Content.empty,
    numbering := none }

/-- A sample anchor with no supplement. -/
def anchorNoSupp : AnchorElem :=
  { counter := Counter.of "figure", supplement := none,
    numbering := some (Numbering.func 1) }

/-- A default figure with a caption set. -/
def figBoth : FigureElem :=
  { FigureElem.new [Item.atom 0] with captionSet := some (some [Item.atom 1]) }

/-- A figure with numbering explicitly disabled and no caption. -/
def figBare : FigureElem :=
  { FigureElem.new [Item.atom 0] with numberingSet := some none }

/-- A figure with numbering explicitly disabled and a caption set. -/
def figCapOnly : FigureElem :=
  { FigureElem.new [Item.atom 0] with
    numberingSet := some none
    captionSet := some (some [Item.atom 1]) }

/-- A default-numbered figure with a caption set and the separator
explicitly set to none. -/
def figSepNone : FigureElem :=
  { FigureElem.new [Item.atom 0] with
    sepSet := some none
    captionSet := some (some [Item.atom 1]) }

/-! Helper lemmas. -/

/-- Supplement resolution always succeeds with its pure value. -/
theorem Supplement.resolve_eq (s : Smart (Option Supplement))
    (name : String) :
    Supplement.resolve s name = Except.ok (Supplement.resolveVal s name) := by
  cases s with
  | auto => rfl
  | custom o =>
    cases o with
    | none => rfl
    | some sup => cases sup; rfl

/-- An anchor's rendering is the supplement part followed by the
numbering part. -/
theorem AnchorElem.show_eq (a : AnchorElem) (styles : StyleChain) :
    AnchorElem.show a styles =
      Except.ok (AnchorElem.supplementPart a ++
        AnchorElem.numberPart a styles) := by
  cases hs : a.supplement <;> cases hn : a.numbering <;>
    simp [AnchorElem.show, AnchorElem.supplementPart, AnchorElem.numberPart,
      hs, hn, Content.empty]

/-- A figure's anchor construction always succeeds with the anchor built
from the resolved supplement. -/
theorem FigureElem.anchor_eq (f : FigureElem) (styles : StyleChain) :
    FigureElem.anchor f styles = Except.ok (FigureElem.anchorOf f styles) := by
  simp [FigureElem.anchor, FigureElem.anchorOf, Supplement.resolve_eq]

/-- A list ending in an appended cons is not nil. -/
theorem append_cons_ne_nil {α : Type} (l r : List α) (x : α) :
    l ++ (x :: r) ≠ [] := by
  cases l <;> simp

/-- A list with a non-nil left part of an append is not nil. -/
theorem append_left_ne_nil {α : Type} {l : List α} (r : List α)
    (h : l ≠ []) : l ++ r ≠ [] := by
  cases l with
  | nil => exact absurd rfl h
  | cons a t => simp

/-- The isEmpty test of a non-nil list is false. -/
theorem isEmpty_false_of_ne_nil {α : Type} {l : List α} (h : l ≠ []) :
    l.isEmpty = false := by
  cases l with
  | nil => exact absurd rfl h
  | cons a t => rfl

/-- When the numbering is present, the caption buffer after the anchor
step holds exactly the anchor's rendering. -/
theorem FigureElem.capAfterAnchor_some (f : FigureElem)
    (styles : StyleChain) (n : Numbering)
    (hn : f.numbering styles = some n) :
    FigureElem.capAfterAnchor f styles =
      Except.ok (FigureElem.anchorShown f styles) := by
  simp [FigureElem.capAfterAnchor, hn, FigureElem.anchor_eq,
    AnchorElem.show_eq, FigureElem.anchorShown, Content.empty]

/-- When the numbering is absent, the caption buffer after the anchor
step is empty. -/
theorem FigureElem.capAfterAnchor_none (f : FigureElem)
    (styles : StyleChain) (hn : f.numbering styles = none) :
    FigureElem.capAfterAnchor f styles = Except.ok Content.empty := by
  simp [FigureElem.capAfterAnchor, hn]

/-- When the numbering is present, the anchor's numbering part is the
step update followed by the display. -/
theorem FigureElem.anchorShown_some (f : FigureElem) (styles : StyleChain)
    (n : Numbering) (hn : f.numbering styles = some n) :
    FigureElem.anchorShown f styles =
      AnchorElem.supplementPart (FigureElem.anchorOf f styles) ++
        (Counter.update (f.counter styles)
            (CounterUpdate.Step (AnchorElem.level (FigureElem.anchorOf f styles) styles)) ++
          Counter.display (f.counter styles) (some n) false) := by
  simp [FigureElem.anchorShown, AnchorElem.numberPart, FigureElem.anchorOf,
    AnchorElem.new, hn]

/-- When the numbering is present, the rendered anchor content is not
empty. -/
theorem FigureElem.anchorShown_ne_nil (f : FigureElem)
    (styles : StyleChain) (n : Numbering)
    (hn : f.numbering styles = some n) :
    FigureElem.anchorShown f styles ≠ [] := by
  rw [FigureElem.anchorShown_some f styles n hn]
  exact append_cons_ne_nil _ _ _

/-! Claim theorems. -/

/-- C1: for every anchor whose numbering is present, `AnchorElem::show`
emits the counter `Step` update at the anchor's level followed
immediately by the counter displayed through that numbering with
reversed = false; for every anchor whose numbering is absent, this step
contributes nothing and the output is the supplement part alone. -/
theorem AnchorElem.show_numbering_cases (a : AnchorElem)
    (styles : StyleChain) :
    (∀ n, a.numbering = some n →
      AnchorElem.show a styles =
        Except.ok (AnchorElem.supplementPart a ++
          (Counter.update a.counter
              (CounterUpdate.Step (AnchorElem.level a styles)) ++
            Counter.display a.counter (some n) false))) ∧
    (a.numbering = none →
      AnchorElem.show a styles =
        Except.ok (AnchorElem.supplementPart a)) := by
  constructor
  · intro n hn
    simp [AnchorElem.show_eq, AnchorElem.numberPart, hn]
  · intro hn
    simp [AnchorElem.show_eq, AnchorElem.numberPart, hn, Content.empty]

/-- Witness for C1, at a numbered and at an unnumbered anchor. -/
theorem AnchorElem.show_numbering_cases_witness :
    AnchorElem.show anchorW StyleChain.empty =
      Except.ok (AnchorElem.supplementPart anchorW ++
        (Counter.update anchorW.counter
            (CounterUpdate.Step (AnchorElem.level anchorW StyleChain.empty)) ++
          Counter.display anchorW.counter (some (Numbering.func 1)) false)) ∧
    AnchorElem.show anchorN StyleChain.empty =
      Except.ok (AnchorElem.supplementPart anchorN) :=
  ⟨(AnchorElem.show_numbering_cases anchorW StyleChain.empty).1
      (Numbering.func 1) rfl,
    (AnchorElem.show_numbering_cases anchorN StyleChain.empty).2 rfl⟩

/-- C3 counterexample: an anchor whose supplement is present but
resolves to empty content still emits the non-breaking space, so the
output is not empty even though the claim requires that such an anchor
emit neither the supplement nor the non-breaking space (its numbering
being absent, the claimed output is empty). -/
theorem AnchorElem.show_empty_supplement_emits_nbsp :
    anchorEmptySupp.supplement = some Content.empty ∧
    anchorEmptySupp.numbering = none ∧
    AnchorElem.show anchorEmptySupp StyleChain.empty =
      Except.ok (TextElem.packed nbspText) ∧
    AnchorElem.show anchorEmptySupp StyleChain.empty ≠
      Except.ok Content.empty := by
  refine ⟨rfl, rfl, rfl, ?_⟩
  intro h
  simp [AnchorElem.show, anchorEmptySupp, Content.empty, TextElem.packed,
    AnchorElem.numberPart] at h

/-- C3 amended: the supplement followed by a non-breaking space is
emitted exactly when the supplement is present (even when it is empty
content); an anchor whose supplement is absent emits neither. -/
theorem AnchorElem.show_supplement_presence (a : AnchorElem)
    (styles : StyleChain) :
    (∀ c, a.supplement = some c →
      AnchorElem.show a styles =
        Except.ok ((c ++ TextElem.packed nbspText) ++
          AnchorElem.numberPart a styles)) ∧
    (a.supplement = none →
      AnchorElem.show a styles =
        Except.ok (AnchorElem.numberPart a styles)) := by
  constructor
  · intro c hc
    simp [AnchorElem.show_eq, AnchorElem.supplementPart, hc]
  · intro hc
    simp [AnchorElem.show_eq, AnchorElem.supplementPart, hc, Content.empty]

/-- Witness for the amended C3, at an anchor with a supplement and at
one without. -/
theorem AnchorElem.show_supplement_presence_witness :
    AnchorElem.show anchorW StyleChain.empty =
      Except.ok (([Item.atom 7] ++ TextElem.packed nbspText) ++
        AnchorElem.numberPart anchorW StyleChain.empty) ∧
    AnchorElem.show anchorNoSupp StyleChain.empty =
      Except.ok (AnchorElem.numberPart anchorNoSupp StyleChain.empty) :=
  ⟨(AnchorElem.show_supplement_presence anchorW StyleChain.empty).1
      [Item.atom 7] rfl,
    (AnchorElem.show_supplement_presence anchorNoSupp StyleChain.empty).2 rfl⟩

/-- C6: for every anchor with already-resolved inputs,
`AnchorElem::show` never fails: it always returns Ok with a single
content value. -/
theorem AnchorElem.show_total (a : AnchorElem) (styles : StyleChain) :
    ∃ c, AnchorElem.show a styles = Except.ok c :=
  ⟨_, rfl⟩

/-- C7: `FigureElem::local_name` is total, returns "Abbildung" for
German, and "Figure" for English and for every language without an
explicit mapping. -/
theorem FigureElem.local_name_cases :
    FigureElem.local_name Lang.GERMAN = "Abbildung" ∧
    FigureElem.local_name Lang.ENGLISH = "Figure" ∧
    ∀ lang : Lang, lang ≠ Lang.GERMAN →
      FigureElem.local_name lang = "Figure" := by
  refine ⟨by decide, by decide, ?_⟩
  intro lang h
  simp [FigureElem.local_name, h]

/-- Witness for C7, at a language with no explicit mapping. -/
theorem FigureElem.local_name_cases_witness :
    (⟨"fr"⟩ : Lang) ≠ Lang.GERMAN ∧
    FigureElem.local_name ⟨"fr"⟩ = "Figure" :=
  ⟨by decide, FigureElem.local_name_cases.2.2 ⟨"fr"⟩ (by decide)⟩

/-- C10: `AnchorElem::synthesize` is independent of the style chain:
for any anchor and any two style chains the resulting element state is
the same, since it only re-pushes the element's own numbering field. -/
theorem AnchorElem.synthesize_styles_independent (a : AnchorElem)
    (s1 s2 : StyleChain) :
    AnchorElem.synthesize a s1 = AnchorElem.synthesize a s2 := rfl

/-- C2: for every figure with both a numbering and a caption, the
caption part of the show output is the anchor content, then the
separator, then the caption content, each exactly once and in that
order, appended to the body after a weak vertical gap. -/
theorem FigureElem.show_numbering_and_caption (f : FigureElem)
    (styles : StyleChain) (n : Numbering) (c : Content)
    (hn : f.numbering styles = some n)
    (hc : f.caption styles = some c) :
    FigureElem.show f styles =
      Except.ok (wrapBlock (f.body ++ VElem.weak (f.gap styles) ++
        ((FigureElem.anchorShown f styles ++
          (f.sep styles).getD Content.empty) ++ c))) := by
  have hcap := FigureElem.capAfterAnchor_some f styles n hn
  have hne := FigureElem.anchorShown_ne_nil f styles n hn
  have h1 := isEmpty_false_of_ne_nil hne
  have h2 : ((FigureElem.anchorShown f styles ++
      (f.sep styles).getD Content.empty) ++ c) ≠ [] :=
    append_left_ne_nil _ (append_left_ne_nil _ hne)
  have h3 := isEmpty_false_of_ne_nil h2
  simp [FigureElem.show, wrapBlock, hcap, hc, h1, h3]
  intro ha hb hcc
  exact absurd ha hne

/-- Witness for C2, at a default figure with a caption set. -/
theorem FigureElem.show_numbering_and_caption_witness :
    FigureElem.show figBoth StyleChain.empty =
      Except.ok (wrapBlock (figBoth.body ++
        VElem.weak (figBoth.gap StyleChain.empty) ++
        ((FigureElem.anchorShown figBoth StyleChain.empty ++
          (figBoth.sep StyleChain.empty).getD Content.empty) ++
          [Item.atom 1]))) :=
  FigureElem.show_numbering_and_caption figBoth StyleChain.empty
    (Numbering.pattern arabicOnePattern) [Item.atom 1]
    (by decide) (by decide)

/-- C4: for every figure with no caption and no numbering, show returns
the body unchanged, wrapped in a non-breakable horizontally centered
block, with no gap and no caption content appended. -/
theorem FigureElem.show_bare_body (f : FigureElem) (styles : StyleChain)
    (hn : f.numbering styles = none)
    (hc : f.caption styles = none) :
    FigureElem.show f styles = Except.ok (wrapBlock f.body) := by
  simp [FigureElem.show, wrapBlock,
    FigureElem.capAfterAnchor_none f styles hn, hc, Content.empty]

/-- Witness for C4, at a figure with numbering disabled and no
caption. -/
theorem FigureElem.show_bare_body_witness :
    FigureElem.show figBare StyleChain.empty =
      Except.ok (wrapBlock figBare.body) :=
  FigureElem.show_bare_body figBare StyleChain.empty rfl rfl

/-- C5: for every figure with a caption but no numbering, the show
output contains the caption directly, with no leading separator before
it: a non-empty caption follows the body and the gap with nothing in
between, and an empty caption leaves the body alone. -/
theorem FigureElem.show_caption_only (f : FigureElem)
    (styles : StyleChain) (c : Content)
    (hn : f.numbering styles = none)
    (hc : f.caption styles = some c) :
    (c ≠ [] → FigureElem.show f styles =
      Except.ok (wrapBlock (f.body ++ VElem.weak (f.gap styles) ++ c))) ∧
    (c = [] → FigureElem.show f styles =
      Except.ok (wrapBlock f.body)) := by
  constructor
  · intro hne
    have h3 := isEmpty_false_of_ne_nil hne
    simp [FigureElem.show, wrapBlock,
      FigureElem.capAfterAnchor_none f styles hn, hc, h3, Content.empty]
  · intro he
    subst he
    simp [FigureElem.show, wrapBlock,
      FigureElem.capAfterAnchor_none f styles hn, hc, Content.empty]

/-- Witness for C5, at a figure with numbering disabled and a caption
set. -/
theorem FigureElem.show_caption_only_witness :
    FigureElem.show figCapOnly StyleChain.empty =
      Except.ok (wrapBlock (figCapOnly.body ++
        VElem.weak (figCapOnly.gap StyleChain.empty) ++ [Item.atom 1])) :=
  (FigureElem.show_caption_only figCapOnly StyleChain.empty [Item.atom 1]
    rfl rfl).1 (by decide)

/-- C8: a figure constructed without explicit configuration defaults to
a counter keyed to the figure kind, the arabic numbering pattern "1",
the separator text ": ", a gap of 0.65 em, and an anchor's target level
defaults to 1. -/
theorem FigureElem.defaults (body : Content) :
    FigureElem.counter (FigureElem.new body) StyleChain.empty =
      Counter.of FigureElem.funcName ∧
    FigureElem.numbering (FigureElem.new body) StyleChain.empty =
      some (Numbering.pattern arabicOnePattern) ∧
    NumberingPattern.fromStr "1" = some arabicOnePattern ∧
    FigureElem.sep (FigureElem.new body) StyleChain.empty =
      some (TextElem.packed ": ") ∧
    FigureElem.gap (FigureElem.new body) StyleChain.empty =
      { abs := 0, em := 13/20 } ∧
    ∀ (cnt : Counter) (s : Option Content) (nb : Option Numbering),
      AnchorElem.level (AnchorElem.new cnt s nb) StyleChain.empty = 1 :=
  ⟨rfl, rfl, by decide, rfl,
    by norm_num [FigureElem.gap, FigureElem.new, StyleChain.empty,
      Em.toLength, Em.new],
    fun cnt s nb => rfl⟩

/-- C9: for every figure with a numbering and a caption whose separator
resolves to none, show does not fail: the separator silently defaults
to empty content and the caption is appended directly after the anchor
content. -/
theorem FigureElem.show_sep_none (f : FigureElem) (styles : StyleChain)
    (n : Numbering) (c : Content)
    (hn : f.numbering styles = some n)
    (hc : f.caption styles = some c)
    (hs : f.sep styles = none) :
    FigureElem.show f styles =
      Except.ok (wrapBlock (f.body ++ VElem.weak (f.gap styles) ++
        (FigureElem.anchorShown f styles ++ c))) := by
  have hcap := FigureElem.capAfterAnchor_some f styles n hn
  have hne := FigureElem.anchorShown_ne_nil f styles n hn
  have h1 := isEmpty_false_of_ne_nil hne
  have h2 : ((FigureElem.anchorShown f styles ++
      (Content.empty : Content)) ++ c) ≠ [] :=
    append_left_ne_nil _ (append_left_ne_nil _ hne)
  have h3 := isEmpty_false_of_ne_nil h2
  simp [FigureElem.show, wrapBlock, hcap, hc, hs, h1, h3, Content.empty]
  intro ha hb
  exact absurd ha hne

/-- Witness for C9, at a default-numbered figure with a caption and the
separator set to none. -/
theorem FigureElem.show_sep_none_witness :
    FigureElem.show figSepNone StyleChain.empty =
      Except.ok (wrapBlock (figSepNone.body ++
        VElem.weak (figSepNone.gap StyleChain.empty) ++
        (FigureElem.anchorShown figSepNone StyleChain.empty ++
          [Item.atom 1]))) :=
  FigureElem.show_sep_none figSepNone StyleChain.empty
    (Numbering.pattern arabicOnePattern) [Item.atom 1]
    (by decide) (by decide) (by decide)
